import Mathlib

/-!
Verification of `tools/mkfat32.py`, a FAT32 volume-image builder.

The script is embedded shallowly:

* byte buffers (`bytearray`) are functions `Nat → Nat` returning the byte
  value at each offset, together with an explicit length where needed;
* `struct.pack_into` with a little-endian format writes the little-endian
  bytes of the value at the given offset (`writeBytes` / `leBytes`);
  `struct.pack_into` raises `struct.error` when the packed value does not
  fit its format width, or when the target buffer is too short — those
  checks appear as the `packOk` guard, so `create_fat32_image` returns
  `Option FatImage` (`none` = the Python call raises and no complete image
  is produced);
* the sequence of `f.write`/`f.seek` calls is summarised by the final file
  content: a length and a byte-at-offset function (`imageByte`), laid out
  in the exact order the script writes (boot sector, remaining reserved
  sectors, FAT copy 1, FAT copy 2, root-directory cluster, sparse gap,
  final zero byte).
-/

/-- Little-endian byte list of `v`, `n` bytes long: byte `k` is
`v / 256^k % 256`.  Mirrors the `<B`/`<H`/`<I` struct formats (`n` = 1, 2, 4). -/
def leBytes : Nat → Nat → List Nat
  | 0, _ => []
  | n + 1, v => v % 256 :: leBytes n (v / 256)

/-- Write `data` into buffer `buf` starting at offset `off`
(`struct.pack_into` semantics: bytes outside `[off, off + data.length)`
are untouched). -/
def writeBytes (buf : Nat → Nat) (off : Nat) (data : List Nat) : Nat → Nat :=
  fun i => if off ≤ i ∧ i < off + data.length then data.getD (i - off) 0 else buf i

/-- The all-zero buffer, `bytearray(n)`'s content. -/
def zeroBuf : Nat → Nat := fun _ => 0

/-- The volume geometry derived in `create_fat32_image`
(`mkfat32.py` lines 6-19). -/
structure Geometry where
  sector_size : Nat
  total_sectors : Nat
  reserved_sectors : Nat
  sectors_per_cluster : Nat
  num_fats : Nat
  root_cluster : Nat
  total_clusters : Nat
  fat_size_sectors : Nat

/-- Geometry computation, field for field from the source:
`total_sectors = (size_mb * 1024 * 1024) // sector_size`,
`total_clusters = total_sectors // sectors_per_cluster`,
`fat_size_sectors = (total_clusters * 4 + 511) // 512`. -/
def mkGeometry (size_mb : Nat) : Geometry :=
  { sector_size := 512
    total_sectors := size_mb * 1024 * 1024 / 512
    reserved_sectors := 32
    sectors_per_cluster := 1
    num_fats := 2
    root_cluster := 2
    total_clusters := size_mb * 1024 * 1024 / 512 / 1
    fat_size_sectors := (size_mb * 1024 * 1024 / 512 / 1 * 4 + 511) / 512 }

/-- The 512-byte boot sector, assembled by the chain of `struct.pack_into`
calls of `create_fat32_image` (lines 26-64), in source order on an all-zero
`bytearray(512)`.  String constants appear as their ASCII byte values. -/
def mkBpb (g : Geometry) : Nat → Nat :=
  -- struct.pack_into('<3B', bpb, 0, 0xEB, 0x3C, 0x90)  -- jump stub
  let b01 := writeBytes zeroBuf 0 [0xEB, 0x3C, 0x90]
  -- struct.pack_into('<8s', bpb, 3, b'MKFAT32 ')  -- OEM name
  let b02 := writeBytes b01 3 [0x4D, 0x4B, 0x46, 0x41, 0x54, 0x33, 0x32, 0x20]
  let b03 := writeBytes b02 11 (leBytes 2 g.sector_size)       -- bytes per sector
  let b04 := writeBytes b03 13 (leBytes 1 g.sectors_per_cluster) -- sectors per cluster
  let b05 := writeBytes b04 14 (leBytes 2 g.reserved_sectors)  -- reserved sectors
  let b06 := writeBytes b05 16 (leBytes 1 g.num_fats)          -- number of FATs
  let b07 := writeBytes b06 17 (leBytes 2 0)                   -- root entries (FAT32: 0)
  let b08 := writeBytes b07 19 (leBytes 2 0)                   -- total sectors 16 (0)
  let b09 := writeBytes b08 21 (leBytes 1 0xF8)                -- media descriptor
  let b10 := writeBytes b09 22 (leBytes 2 0)                   -- FAT size 16 (0)
  let b11 := writeBytes b10 24 (leBytes 2 32)                  -- sectors per track
  let b12 := writeBytes b11 26 (leBytes 2 64)                  -- number of heads
  let b13 := writeBytes b12 28 (leBytes 4 0)                   -- hidden sectors
  let b14 := writeBytes b13 32 (leBytes 4 g.total_sectors)     -- total sectors 32
  let b15 := writeBytes b14 36 (leBytes 4 g.fat_size_sectors)  -- FAT size 32
  let b16 := writeBytes b15 40 (leBytes 2 0)                   -- ext flags
  let b17 := writeBytes b16 42 (leBytes 2 0)                   -- FS version
  let b18 := writeBytes b17 44 (leBytes 4 g.root_cluster)      -- root cluster
  let b19 := writeBytes b18 48 (leBytes 2 1)                   -- FS info sector
  let b20 := writeBytes b19 50 (leBytes 2 6)                   -- backup boot sector
  let b21 := writeBytes b20 64 (leBytes 1 0x80)                -- drive number
  let b22 := writeBytes b21 66 (leBytes 1 0x29)                -- ext boot signature
  let b23 := writeBytes b22 67 (leBytes 4 0x12345678)          -- volume ID
  -- struct.pack_into('<11s', bpb, 71, b'ICEOS DISK ')  -- volume label
  let b24 := writeBytes b23 71 [0x49, 0x43, 0x45, 0x4F, 0x53, 0x20, 0x44, 0x49, 0x53, 0x4B, 0x20]
  -- struct.pack_into('<8s', bpb, 82, b'FAT32   ')  -- FS type
  let b25 := writeBytes b24 82 [0x46, 0x41, 0x54, 0x33, 0x32, 0x20, 0x20, 0x20]
  writeBytes b25 510 (leBytes 2 0xAA55)                        -- boot signature

/-- The FAT buffer (`fat_data`, lines 78-82): `bytearray(512 * fat_size_sectors)`
with entries 0, 1, 2 packed as 32-bit little-endian values at offsets 0, 4, 8. -/
def mkFat : Nat → Nat :=
  writeBytes (writeBytes (writeBytes zeroBuf 0 (leBytes 4 0x0FFFFFF8))
    4 (leBytes 4 0x0FFFFFFF)) 8 (leBytes 4 0x0FFFFFFF)

/-- Conditions under which every `struct.pack_into` call of
`create_fat32_image` and the final `f.seek` succeed:
the two geometry-derived 32-bit fields fit `<I` (a value above
`0xFFFFFFFF` raises `struct.error`), the FAT buffer is long enough for the
three packs at offsets 0/4/8 (`pack_into` raises when `offset + 4` exceeds
the buffer length), and the seek offset `total_sectors * 512 - 1` is
non-negative.  Every other packed value is an in-range constant. -/
def packOk (g : Geometry) : Prop :=
  g.total_sectors ≤ 0xFFFFFFFF ∧ g.fat_size_sectors ≤ 0xFFFFFFFF ∧
    12 ≤ g.sector_size * g.fat_size_sectors ∧ 1 ≤ g.total_sectors * g.sector_size

instance (g : Geometry) : Decidable (packOk g) := by
  unfold packOk; infer_instance

/-- Byte `i` of the finished file, following the write sequence of
lines 67-102: boot sector, `(reserved_sectors - 1)` zero sectors, FAT copy 1,
FAT copy 2, one zero cluster (root directory), then a seek to
`total_sectors * 512 - 1` and a final zero byte (the sparse gap in between
reads as zero).  The final single-byte write happens last, hence the first
branch. -/
def imageByte (g : Geometry) (bpb fat : Nat → Nat) (i : Nat) : Nat :=
  if i = g.total_sectors * g.sector_size - 1 then 0
  else if i < g.sector_size then bpb i
  else if i < g.reserved_sectors * g.sector_size then 0
  else if i < (g.reserved_sectors + g.fat_size_sectors) * g.sector_size then
    fat (i - g.reserved_sectors * g.sector_size)
  else if i < (g.reserved_sectors + 2 * g.fat_size_sectors) * g.sector_size then
    fat (i - (g.reserved_sectors + g.fat_size_sectors) * g.sector_size)
  else 0  -- root-directory cluster, sparse gap: all zero

/-- The produced file: its length and its content. -/
structure FatImage where
  len : Nat
  byteAt : Nat → Nat

/-- `create_fat32_image(filename, size_mb)` (lines 5-102).  The byte content
never depends on `filename` (it is only the `open` target).  The file length
is the furthest write position: sequential writes end at
`(reserved + 2 * fat_size + 1) * 512`; the final seek-and-write ends at
`total_sectors * 512`.  Returns `none` when a `struct.pack_into` call (or the
final seek) raises, in which case no complete image is produced. -/
def create_fat32_image (filename : String) (size_mb : Nat) : Option FatImage :=
  let g := mkGeometry size_mb
  if packOk g then
    some { len := max ((g.reserved_sectors + g.num_fats * g.fat_size_sectors +
                        g.sectors_per_cluster) * g.sector_size)
                      (g.total_sectors * g.sector_size)
           byteAt := imageByte g (mkBpb g) mkFat }
  else none

/-- Result of running the script: exit code, whether the usage message was
printed, and the output file written (`none` when none was attempted). -/
structure MainResult where
  exitCode : Nat
  usagePrinted : Bool
  output : Option (String × Option FatImage)

/-- The `__main__` block (lines 104-108): with fewer than two `argv` entries
it prints usage and exits 1; otherwise it calls
`create_fat32_image(sys.argv[1])` — with the default `size_mb = 32` and
ignoring any further arguments — and exits 0. -/
def mainRun (argv : List String) : MainResult :=
  match argv with
  | _script :: fn :: _rest =>
      { exitCode := 0, usagePrinted := false,
        output := some (fn, create_fat32_image fn 32) }
  | _ => { exitCode := 1, usagePrinted := true, output := none }

/-- Length of the produced image, 0 when none was produced. -/
def imgLen (o : Option FatImage) : Nat := o.elim 0 (·.len)

/-- Byte `i` of the produced image, 0 when none was produced. -/
def imgByte (o : Option FatImage) (i : Nat) : Nat := o.elim 0 (fun im => im.byteAt i)

/-- Little-endian 32-bit decode of the four produced-image bytes at `off`. -/
def imgLE32 (o : Option FatImage) (off : Nat) : Nat :=
  imgByte o off + 256 * imgByte o (off + 1) + 65536 * imgByte o (off + 2) +
    16777216 * imgByte o (off + 3)

/-- Little-endian 16-bit decode of the two produced-image bytes at `off`. -/
def imgLE16 (o : Option FatImage) (off : Nat) : Nat :=
  imgByte o off + 256 * imgByte o (off + 1)

/-- Length of the image the script wrote, if `mainRun` wrote one. -/
def mainOutputLen (r : MainResult) : Option Nat :=
  r.output.map (fun p => imgLen p.2)

/-! ### Helper lemmas -/

theorem leBytes_length (n v : Nat) : (leBytes n v).length = n := by
  induction n generalizing v with
  | zero => rfl
  | succ n ih => simp [leBytes, ih]

theorem writeBytes_out (buf : Nat → Nat) (off : Nat) (data : List Nat) (i : Nat)
    (h : i < off ∨ off + data.length ≤ i) : writeBytes buf off data i = buf i := by
  unfold writeBytes
  rw [if_neg]
  omega

theorem geometry_eval (s : Nat) :
    (mkGeometry s).sector_size = 512 ∧ (mkGeometry s).reserved_sectors = 32 ∧
    (mkGeometry s).sectors_per_cluster = 1 ∧ (mkGeometry s).num_fats = 2 ∧
    (mkGeometry s).root_cluster = 2 ∧
    (mkGeometry s).total_sectors = 2048 * s ∧
    (mkGeometry s).total_clusters = 2048 * s ∧
    (mkGeometry s).fat_size_sectors = 16 * s := by
  refine ⟨rfl, rfl, rfl, rfl, rfl, ?_, ?_, ?_⟩ <;> simp [mkGeometry] <;> omega

theorem packOk_of_bounds (s : Nat) (h1 : 0 < s) (h2 : s ≤ 2097151) :
    packOk (mkGeometry s) := by
  obtain ⟨-, -, -, -, -, hts, -, hfs⟩ := geometry_eval s
  refine ⟨?_, ?_, ?_, ?_⟩ <;>
    simp [mkGeometry, Geometry.total_sectors, Geometry.fat_size_sectors,
      Geometry.sector_size] <;> omega

theorem create_eq_of_packOk (fn : String) (s : Nat) (h : packOk (mkGeometry s)) :
    create_fat32_image fn s =
      some { len := max (((mkGeometry s).reserved_sectors +
                          (mkGeometry s).num_fats * (mkGeometry s).fat_size_sectors +
                          (mkGeometry s).sectors_per_cluster) * (mkGeometry s).sector_size)
                        ((mkGeometry s).total_sectors * (mkGeometry s).sector_size)
             byteAt := imageByte (mkGeometry s) (mkBpb (mkGeometry s)) mkFat } := by
  unfold create_fat32_image
  rw [if_pos h]

theorem create_isSome_iff (fn : String) (s : Nat) :
    (create_fat32_image fn s).isSome = true ↔ packOk (mkGeometry s) := by
  unfold create_fat32_image
  by_cases h : packOk (mkGeometry s)
  · rw [if_pos h]; simpa using h
  · rw [if_neg h]; simpa using h

theorem imgLen_create (fn : String) (s : Nat) (h : packOk (mkGeometry s)) :
    imgLen (create_fat32_image fn s) =
      max (((mkGeometry s).reserved_sectors +
            (mkGeometry s).num_fats * (mkGeometry s).fat_size_sectors +
            (mkGeometry s).sectors_per_cluster) * (mkGeometry s).sector_size)
          ((mkGeometry s).total_sectors * (mkGeometry s).sector_size) := by
  rw [create_eq_of_packOk fn s h]
  rfl

theorem imgByte_create (fn : String) (s i : Nat) (h : packOk (mkGeometry s)) :
    imgByte (create_fat32_image fn s) i =
      imageByte (mkGeometry s) (mkBpb (mkGeometry s)) mkFat i := by
  rw [create_eq_of_packOk fn s h]
  rfl

/-! ### Claim C4 — geometry derivation -/

/-- C4: for every positive `size_mb` the derived geometry satisfies
`total_clusters = total_sectors = size_mb * 1024 * 1024 / 512` (integer
division) and `fat_size_sectors` is the ceiling of
`total_clusters * 4 / 512` (characterised by the two inequalities
`total_clusters * 4 ≤ fat_size_sectors * 512 < total_clusters * 4 + 512`);
`size_mb = 1` gives `total_sectors = 2048`, `total_clusters = 2048`,
`fat_size_sectors = 16`. -/
theorem c4_geometry (s : Nat) (h : 0 < s) :
    (mkGeometry s).total_clusters = (mkGeometry s).total_sectors ∧
    (mkGeometry s).total_sectors = s * 1024 * 1024 / 512 ∧
    (mkGeometry s).total_clusters * 4 ≤ (mkGeometry s).fat_size_sectors * 512 ∧
    (mkGeometry s).fat_size_sectors * 512 < (mkGeometry s).total_clusters * 4 + 512 ∧
    (mkGeometry 1).total_sectors = 2048 ∧ (mkGeometry 1).total_clusters = 2048 ∧
    (mkGeometry 1).fat_size_sectors = 16 := by
  refine ⟨?_, ?_, ?_, ?_, by decide, by decide, by decide⟩ <;> simp [mkGeometry] <;> omega

/-- Witness for C4 at `size_mb = 1`. -/
theorem c4_geometry_witness :
    (mkGeometry 1).total_clusters = (mkGeometry 1).total_sectors ∧
    (mkGeometry 1).total_sectors = 1 * 1024 * 1024 / 512 ∧
    (mkGeometry 1).total_clusters * 4 ≤ (mkGeometry 1).fat_size_sectors * 512 ∧
    (mkGeometry 1).fat_size_sectors * 512 < (mkGeometry 1).total_clusters * 4 + 512 ∧
    (mkGeometry 1).total_sectors = 2048 ∧ (mkGeometry 1).total_clusters = 2048 ∧
    (mkGeometry 1).fat_size_sectors = 16 :=
  c4_geometry 1 (by decide)

/-! ### Claim C10 — writes fit inside the declared volume -/

/-- C10: for every positive `size_mb`, the sectors written before the
sparse-extension step fit inside the declared volume
(`reserved + num_fats * fat_size + sectors_per_cluster ≤ total_sectors`),
and the seek target `total_sectors * 512 - 1` is at or beyond the write
position reached after the root-directory cluster. -/
theorem c10_layout_invariant (s : Nat) (h : 0 < s) :
    (mkGeometry s).reserved_sectors +
        (mkGeometry s).num_fats * (mkGeometry s).fat_size_sectors +
        (mkGeometry s).sectors_per_cluster ≤ (mkGeometry s).total_sectors ∧
    ((mkGeometry s).reserved_sectors +
        (mkGeometry s).num_fats * (mkGeometry s).fat_size_sectors +
        (mkGeometry s).sectors_per_cluster) * (mkGeometry s).sector_size ≤
      (mkGeometry s).total_sectors * (mkGeometry s).sector_size - 1 := by
  constructor <;> simp [mkGeometry] <;> omega

/-- Witness for C10 at `size_mb = 1`. -/
theorem c10_layout_invariant_witness :
    (mkGeometry 1).reserved_sectors +
        (mkGeometry 1).num_fats * (mkGeometry 1).fat_size_sectors +
        (mkGeometry 1).sectors_per_cluster ≤ (mkGeometry 1).total_sectors ∧
    ((mkGeometry 1).reserved_sectors +
        (mkGeometry 1).num_fats * (mkGeometry 1).fat_size_sectors +
        (mkGeometry 1).sectors_per_cluster) * (mkGeometry 1).sector_size ≤
      (mkGeometry 1).total_sectors * (mkGeometry 1).sector_size - 1 :=
  c10_layout_invariant 1 (by decide)

/-! ### Claim C1 — produced file length (corrected: needs a size bound) -/

/-- C1 as stated is false: at `size_mb = 2097152` (2 TiB) the value
`total_sectors = 2^32` does not fit the `<I` field at boot-sector offset 32,
`struct.pack_into` raises `struct.error` before the file is opened, and no
file is produced at all — in particular no file of length
`2097152 * 1024 * 1024`. -/
theorem c1_counterexample :
    0 < 2097152 ∧ (create_fat32_image "disk.img" 2097152).isSome = false ∧
      imgLen (create_fat32_image "disk.img" 2097152) = 0 := by
  refine ⟨by decide, by decide, by decide⟩

/-- C1 (amended with the bound the counterexample forces): for every
`size_mb` with `0 < size_mb ≤ 2097151` — i.e. whenever `total_sectors`
fits its 32-bit boot-sector field — a file is produced, its length is
exactly `size_mb * 1024 * 1024` bytes (`= total_sectors * 512`), and the
sparse-extension step leaves byte `size_mb * 1024 * 1024 - 1`, the final
byte, zero. -/
theorem c1_file_length (fn : String) (s : Nat) (h1 : 0 < s) (h2 : s ≤ 2097151) :
    (create_fat32_image fn s).isSome = true ∧
    imgLen (create_fat32_image fn s) = s * 1024 * 1024 ∧
    imgLen (create_fat32_image fn s) = (mkGeometry s).total_sectors * 512 ∧
    imgByte (create_fat32_image fn s) (s * 1024 * 1024 - 1) = 0 := by
  have hok := packOk_of_bounds s h1 h2
  obtain ⟨h512, hres, hspc, hnf, -, hts, -, hfs⟩ := geometry_eval s
  have hlen : imgLen (create_fat32_image fn s) = s * 1024 * 1024 := by
    rw [imgLen_create fn s hok, h512, hres, hspc, hnf, hts, hfs]
    omega
  refine ⟨(create_isSome_iff fn s).mpr hok, hlen, by rw [hlen, hts]; omega, ?_⟩
  rw [imgByte_create fn s _ hok]
  unfold imageByte
  rw [if_pos (by rw [h512, hts]; omega)]

/-- Witness for C1 (amended) at `size_mb = 1`. -/
theorem c1_file_length_witness :
    (create_fat32_image "disk.img" 1).isSome = true ∧
    imgLen (create_fat32_image "disk.img" 1) = 1 * 1024 * 1024 ∧
    imgLen (create_fat32_image "disk.img" 1) = (mkGeometry 1).total_sectors * 512 ∧
    imgByte (create_fat32_image "disk.img" 1) (1 * 1024 * 1024 - 1) = 0 :=
  c1_file_length "disk.img" 1 (by decide) (by decide)

/-! ### Claim C2 — boot-sector layout -/

theorem imgByte_boot (fn : String) (s : Nat) (h1 : 0 < s)
    (hok : packOk (mkGeometry s)) (i : Nat) (h2 : i < 512) :
    imgByte (create_fat32_image fn s) i = mkBpb (mkGeometry s) i := by
  rw [imgByte_create fn s i hok]
  obtain ⟨h512, hres, hspc, hnf, -, hts, -, hfs⟩ := geometry_eval s
  unfold imageByte
  rw [h512, hres, hts]
  rw [if_neg (by omega), if_pos (by omega)]

theorem bpb_uncovered (g : Geometry) (i : Nat)
    (h : (52 ≤ i ∧ i < 64) ∨ i = 65 ∨ (90 ≤ i ∧ i < 510)) : mkBpb g i = 0 := by
  unfold mkBpb
  repeat rw [writeBytes_out _ _ _ _ (by simp [leBytes_length]; omega)]
  rfl

set_option maxHeartbeats 2000000 in
/-- C2: for every positive `size_mb` whose image is produced, bytes 0-511 of
the output are the boot sector of the section-6 table: every listed field is
written little-endian at its listed offset with its listed constant or
geometry-derived value (total sectors at offset 32, FAT size at offset 36,
signature `0xAA55` at 510-511), and every boot-sector byte not covered by a
listed field (52-63, 65, 90-509) is zero. -/
theorem c2_boot_sector (fn : String) (s : Nat) (h0 : 0 < s)
    (hs : (create_fat32_image fn s).isSome = true) :
    (imgByte (create_fat32_image fn s) 0 = 0xEB ∧
     imgByte (create_fat32_image fn s) 1 = 0x3C ∧
     imgByte (create_fat32_image fn s) 2 = 0x90 ∧
     imgByte (create_fat32_image fn s) 3 = 0x4D ∧
     imgByte (create_fat32_image fn s) 4 = 0x4B ∧
     imgByte (create_fat32_image fn s) 5 = 0x46 ∧
     imgByte (create_fat32_image fn s) 6 = 0x41 ∧
     imgByte (create_fat32_image fn s) 7 = 0x54 ∧
     imgByte (create_fat32_image fn s) 8 = 0x33 ∧
     imgByte (create_fat32_image fn s) 9 = 0x32 ∧
     imgByte (create_fat32_image fn s) 10 = 0x20 ∧
     imgLE16 (create_fat32_image fn s) 11 = 512 ∧
     imgByte (create_fat32_image fn s) 13 = 1 ∧
     imgLE16 (create_fat32_image fn s) 14 = 32 ∧
     imgByte (create_fat32_image fn s) 16 = 2 ∧
     imgLE16 (create_fat32_image fn s) 17 = 0 ∧
     imgLE16 (create_fat32_image fn s) 19 = 0 ∧
     imgByte (create_fat32_image fn s) 21 = 0xF8 ∧
     imgLE16 (create_fat32_image fn s) 22 = 0 ∧
     imgLE16 (create_fat32_image fn s) 24 = 32 ∧
     imgLE16 (create_fat32_image fn s) 26 = 64 ∧
     imgLE32 (create_fat32_image fn s) 28 = 0 ∧
     imgLE32 (create_fat32_image fn s) 32 = (mkGeometry s).total_sectors ∧
     imgLE32 (create_fat32_image fn s) 36 = (mkGeometry s).fat_size_sectors ∧
     imgLE16 (create_fat32_image fn s) 40 = 0 ∧
     imgLE16 (create_fat32_image fn s) 42 = 0 ∧
     imgLE32 (create_fat32_image fn s) 44 = 2 ∧
     imgLE16 (create_fat32_image fn s) 48 = 1 ∧
     imgLE16 (create_fat32_image fn s) 50 = 6 ∧
     imgByte (create_fat32_image fn s) 64 = 0x80 ∧
     imgByte (create_fat32_image fn s) 66 = 0x29 ∧
     imgLE32 (create_fat32_image fn s) 67 = 0x12345678 ∧
     imgByte (create_fat32_image fn s) 71 = 0x49 ∧
     imgByte (create_fat32_image fn s) 72 = 0x43 ∧
     imgByte (create_fat32_image fn s) 73 = 0x45 ∧
     imgByte (create_fat32_image fn s) 74 = 0x4F ∧
     imgByte (create_fat32_image fn s) 75 = 0x53 ∧
     imgByte (create_fat32_image fn s) 76 = 0x20 ∧
     imgByte (create_fat32_image fn s) 77 = 0x44 ∧
     imgByte (create_fat32_image fn s) 78 = 0x49 ∧
     imgByte (create_fat32_image fn s) 79 = 0x53 ∧
     imgByte (create_fat32_image fn s) 80 = 0x4B ∧
     imgByte (create_fat32_image fn s) 81 = 0x20 ∧
     imgByte (create_fat32_image fn s) 82 = 0x46 ∧
     imgByte (create_fat32_image fn s) 83 = 0x41 ∧
     imgByte (create_fat32_image fn s) 84 = 0x54 ∧
     imgByte (create_fat32_image fn s) 85 = 0x33 ∧
     imgByte (create_fat32_image fn s) 86 = 0x32 ∧
     imgByte (create_fat32_image fn s) 87 = 0x20 ∧
     imgByte (create_fat32_image fn s) 88 = 0x20 ∧
     imgByte (create_fat32_image fn s) 89 = 0x20 ∧
     imgLE16 (create_fat32_image fn s) 510 = 0xAA55) ∧
    (∀ i : Nat, (52 ≤ i ∧ i < 64) ∨ i = 65 ∨ (90 ≤ i ∧ i < 510) →
      imgByte (create_fat32_image fn s) i = 0) := by
  have hok := (create_isSome_iff fn s).mp hs
  have hts_le : (mkGeometry s).total_sectors ≤ 0xFFFFFFFF := hok.1
  have hfs_le : (mkGeometry s).fat_size_sectors ≤ 0xFFFFFFFF := hok.2.1
  have hA := imgByte_boot fn s h0 hok
  constructor
  · simp only [imgLE16, imgLE32]
    simp only [hA 0 (by norm_num), hA 1 (by norm_num), hA 2 (by norm_num),
      hA 3 (by norm_num), hA 4 (by norm_num), hA 5 (by norm_num), hA 6 (by norm_num),
      hA 7 (by norm_num), hA 8 (by norm_num), hA 9 (by norm_num), hA 10 (by norm_num),
      hA 11 (by norm_num), hA 12 (by norm_num), hA 13 (by norm_num), hA 14 (by norm_num),
      hA 15 (by norm_num), hA 16 (by norm_num), hA 17 (by norm_num), hA 18 (by norm_num),
      hA 19 (by norm_num), hA 20 (by norm_num), hA 21 (by norm_num), hA 22 (by norm_num),
      hA 23 (by norm_num), hA 24 (by norm_num), hA 25 (by norm_num), hA 26 (by norm_num),
      hA 27 (by norm_num), hA 28 (by norm_num), hA 29 (by norm_num), hA 30 (by norm_num),
      hA 31 (by norm_num), hA 32 (by norm_num), hA 33 (by norm_num), hA 34 (by norm_num),
      hA 35 (by norm_num), hA 36 (by norm_num), hA 37 (by norm_num), hA 38 (by norm_num),
      hA 39 (by norm_num), hA 40 (by norm_num), hA 41 (by norm_num), hA 42 (by norm_num),
      hA 43 (by norm_num), hA 44 (by norm_num), hA 45 (by norm_num), hA 46 (by norm_num),
      hA 47 (by norm_num), hA 48 (by norm_num), hA 49 (by norm_num), hA 50 (by norm_num),
      hA 51 (by norm_num), hA 64 (by norm_num), hA 66 (by norm_num), hA 67 (by norm_num),
      hA 68 (by norm_num), hA 69 (by norm_num), hA 70 (by norm_num), hA 71 (by norm_num),
      hA 72 (by norm_num), hA 73 (by norm_num), hA 74 (by norm_num), hA 75 (by norm_num),
      hA 76 (by norm_num), hA 77 (by norm_num), hA 78 (by norm_num), hA 79 (by norm_num),
      hA 80 (by norm_num), hA 81 (by norm_num), hA 82 (by norm_num), hA 83 (by norm_num),
      hA 84 (by norm_num), hA 85 (by norm_num), hA 86 (by norm_num), hA 87 (by norm_num),
      hA 88 (by norm_num), hA 89 (by norm_num), hA 510 (by norm_num), hA 511 (by norm_num)]
    simp [mkGeometry] at hts_le hfs_le
    simp [mkBpb, mkGeometry, writeBytes, leBytes]
    omega
  · intro i hi
    rw [hA i (by omega), bpb_uncovered _ i hi]

/-- Witness for C2 at `size_mb = 32` (the section-8 scenario:
`total_sectors = 65536` decoded at offset 32, `fat_size_sectors = 512`
decoded at offset 36, signature at 510). -/
theorem c2_boot_sector_witness :
    imgLE32 (create_fat32_image "disk.img" 32) 32 = (mkGeometry 32).total_sectors ∧
    (mkGeometry 32).total_sectors = 65536 ∧
    imgLE32 (create_fat32_image "disk.img" 32) 36 = (mkGeometry 32).fat_size_sectors ∧
    (mkGeometry 32).fat_size_sectors = 512 ∧
    imgLE16 (create_fat32_image "disk.img" 32) 510 = 0xAA55 ∧
    imgByte (create_fat32_image "disk.img" 32) 65 = 0 := by
  obtain ⟨⟨-, -, -, -, -, -, -, -, -, -, -, -, -, -, -, -, -, -, -, -, -, -,
      h32, h36, -, -, -, -, -, -, -, -, -, -, -, -, -, -, -, -, -, -, -, -,
      -, -, -, -, -, -, -, h510⟩, hz⟩ :=
    c2_boot_sector "disk.img" 32 (by decide) (by decide)
  exact ⟨h32, by decide, h36, by decide, h510, hz 65 (by norm_num)⟩

/-! ### Claims C3, C5, C6 — FAT entries, FAT copies, root cluster -/

theorem imgByte_fat1 (fn : String) (s : Nat) (h0 : 0 < s)
    (hok : packOk (mkGeometry s)) (i : Nat) (hi1 : 16384 ≤ i)
    (hi2 : i < 16384 + 8192 * s) :
    imgByte (create_fat32_image fn s) i = mkFat (i - 16384) := by
  rw [imgByte_create fn s i hok]
  obtain ⟨h512, hres, hspc, hnf, -, hts, -, hfs⟩ := geometry_eval s
  unfold imageByte
  rw [h512, hres, hts, hfs]
  rw [if_neg (by omega), if_neg (by omega), if_neg (by omega), if_pos (by omega)]

theorem imgByte_fat2 (fn : String) (s : Nat) (h0 : 0 < s)
    (hok : packOk (mkGeometry s)) (i : Nat) (hi1 : 16384 + 8192 * s ≤ i)
    (hi2 : i < 16384 + 16384 * s) :
    imgByte (create_fat32_image fn s) i = mkFat (i - (16384 + 8192 * s)) := by
  rw [imgByte_create fn s i hok]
  obtain ⟨h512, hres, hspc, hnf, -, hts, -, hfs⟩ := geometry_eval s
  unfold imageByte
  rw [h512, hres, hts, hfs]
  rw [if_neg (by omega), if_neg (by omega), if_neg (by omega), if_neg (by omega),
    if_pos (by omega)]
  congr 1
  omega

theorem mkFat_past_entries (j : Nat) (h : 12 ≤ j) : mkFat j = 0 := by
  unfold mkFat
  repeat rw [writeBytes_out _ _ _ _ (by simp [leBytes_length]; omega)]
  rfl

/-- C3: for every positive `size_mb` whose image is produced, entry `k` of
each FAT copy (the little-endian 32-bit value at byte offset
`reserved_sectors * 512 + 4 * k`, resp.
`(reserved_sectors + fat_size_sectors) * 512 + 4 * k`) equals `0x0FFFFFF8`
for `k = 0`, `0x0FFFFFFF` for `k = 1, 2`, and `0` for every
`3 ≤ k < total_clusters`. -/
theorem c3_fat_entries (fn : String) (s : Nat) (h0 : 0 < s)
    (hs : (create_fat32_image fn s).isSome = true) :
    ∀ k, k < (mkGeometry s).total_clusters →
      imgLE32 (create_fat32_image fn s) ((mkGeometry s).reserved_sectors * 512 + 4 * k) =
        (if k = 0 then 0x0FFFFFF8 else if k ≤ 2 then 0x0FFFFFFF else 0) ∧
      imgLE32 (create_fat32_image fn s)
          (((mkGeometry s).reserved_sectors + (mkGeometry s).fat_size_sectors) * 512 + 4 * k) =
        (if k = 0 then 0x0FFFFFF8 else if k ≤ 2 then 0x0FFFFFFF else 0) := by
  have hok := (create_isSome_iff fn s).mp hs
  obtain ⟨h512, hres, hspc, hnf, -, hts, htc, hfs⟩ := geometry_eval s
  intro k hk
  rw [htc] at hk
  rw [hres, hfs]
  have hfatval : mkFat (4 * k) + 256 * mkFat (4 * k + 1) + 65536 * mkFat (4 * k + 2) +
      16777216 * mkFat (4 * k + 3) =
      (if k = 0 then 0x0FFFFFF8 else if k ≤ 2 then 0x0FFFFFFF else 0) := by
    match k with
    | 0 => decide
    | 1 => decide
    | 2 => decide
    | (m + 3) =>
      rw [mkFat_past_entries (4 * (m + 3)) (by omega),
        mkFat_past_entries (4 * (m + 3) + 1) (by omega),
        mkFat_past_entries (4 * (m + 3) + 2) (by omega),
        mkFat_past_entries (4 * (m + 3) + 3) (by omega),
        if_neg (by omega), if_neg (by omega)]
  constructor
  · simp only [imgLE16, imgLE32]
    rw [imgByte_fat1 fn s h0 hok _ (by omega) (by omega),
      imgByte_fat1 fn s h0 hok _ (by omega) (by omega),
      imgByte_fat1 fn s h0 hok _ (by omega) (by omega),
      imgByte_fat1 fn s h0 hok _ (by omega) (by omega)]
    have e0 : 32 * 512 + 4 * k - 16384 = 4 * k := by omega
    have e1 : 32 * 512 + 4 * k + 1 - 16384 = 4 * k + 1 := by omega
    have e2 : 32 * 512 + 4 * k + 2 - 16384 = 4 * k + 2 := by omega
    have e3 : 32 * 512 + 4 * k + 3 - 16384 = 4 * k + 3 := by omega
    rw [e0, e1, e2, e3, hfatval]
  · simp only [imgLE16, imgLE32]
    rw [imgByte_fat2 fn s h0 hok _ (by omega) (by omega),
      imgByte_fat2 fn s h0 hok _ (by omega) (by omega),
      imgByte_fat2 fn s h0 hok _ (by omega) (by omega),
      imgByte_fat2 fn s h0 hok _ (by omega) (by omega)]
    have e0 : (32 + 16 * s) * 512 + 4 * k - (16384 + 8192 * s) = 4 * k := by omega
    have e1 : (32 + 16 * s) * 512 + 4 * k + 1 - (16384 + 8192 * s) = 4 * k + 1 := by omega
    have e2 : (32 + 16 * s) * 512 + 4 * k + 2 - (16384 + 8192 * s) = 4 * k + 2 := by omega
    have e3 : (32 + 16 * s) * 512 + 4 * k + 3 - (16384 + 8192 * s) = 4 * k + 3 := by omega
    rw [e0, e1, e2, e3, hfatval]

/-- C5: for every positive `size_mb` whose image is produced, the two FAT
regions of the output — each `fat_size_sectors * 512` bytes, starting at
byte offsets `reserved_sectors * 512` and
`(reserved_sectors + fat_size_sectors) * 512` — are byte-identical. -/
theorem c5_fat_copies_identical (fn : String) (s : Nat) (h0 : 0 < s)
    (hs : (create_fat32_image fn s).isSome = true) :
    ∀ j, j < (mkGeometry s).fat_size_sectors * 512 →
      imgByte (create_fat32_image fn s) ((mkGeometry s).reserved_sectors * 512 + j) =
      imgByte (create_fat32_image fn s)
        (((mkGeometry s).reserved_sectors + (mkGeometry s).fat_size_sectors) * 512 + j) := by
  have hok := (create_isSome_iff fn s).mp hs
  obtain ⟨h512, hres, hspc, hnf, -, hts, htc, hfs⟩ := geometry_eval s
  intro j hj
  rw [hfs] at hj
  rw [hres, hfs]
  conv_lhs => rw [imgByte_fat1 fn s h0 hok _ (by omega) (by omega)]
  conv_rhs => rw [imgByte_fat2 fn s h0 hok _ (by omega) (by omega)]
  have e : (32 + 16 * s) * 512 + j - (16384 + 8192 * s) = 32 * 512 + j - 16384 := by omega
  rw [e]

theorem imgByte_tail (fn : String) (s : Nat) (h0 : 0 < s)
    (hok : packOk (mkGeometry s)) (i : Nat) (hi : 16384 + 16384 * s ≤ i) :
    imgByte (create_fat32_image fn s) i = 0 := by
  rw [imgByte_create fn s i hok]
  obtain ⟨h512, hres, hspc, hnf, -, hts, -, hfs⟩ := geometry_eval s
  unfold imageByte
  simp only [h512, hres, hts, hfs]
  split_ifs <;> omega

/-- C6: for every positive `size_mb` whose image is produced, the root
directory cluster — the `sector_size * sectors_per_cluster` bytes starting
at byte offset `(reserved_sectors + 2 * fat_size_sectors) * 512`, right
after the two FAT copies — is entirely zero. -/
theorem c6_root_cluster_zero (fn : String) (s : Nat) (h0 : 0 < s)
    (hs : (create_fat32_image fn s).isSome = true) :
    ∀ j, j < (mkGeometry s).sector_size * (mkGeometry s).sectors_per_cluster →
      imgByte (create_fat32_image fn s)
        (((mkGeometry s).reserved_sectors + 2 * (mkGeometry s).fat_size_sectors) * 512 + j) =
      0 := by
  have hok := (create_isSome_iff fn s).mp hs
  obtain ⟨h512, hres, hspc, hnf, -, hts, htc, hfs⟩ := geometry_eval s
  intro j hj
  exact imgByte_tail fn s h0 hok _ (by omega)

/-- Witness for C3 at `size_mb = 1`: entries 0-3 of FAT copy 1 and entry 0
of FAT copy 2. -/
theorem c3_fat_entries_witness :
    imgLE32 (create_fat32_image "disk.img" 1)
      ((mkGeometry 1).reserved_sectors * 512 + 4 * 0) = 0x0FFFFFF8 ∧
    imgLE32 (create_fat32_image "disk.img" 1)
      ((mkGeometry 1).reserved_sectors * 512 + 4 * 1) = 0x0FFFFFFF ∧
    imgLE32 (create_fat32_image "disk.img" 1)
      ((mkGeometry 1).reserved_sectors * 512 + 4 * 2) = 0x0FFFFFFF ∧
    imgLE32 (create_fat32_image "disk.img" 1)
      ((mkGeometry 1).reserved_sectors * 512 + 4 * 3) = 0 ∧
    imgLE32 (create_fat32_image "disk.img" 1)
      (((mkGeometry 1).reserved_sectors + (mkGeometry 1).fat_size_sectors) * 512 + 4 * 0) =
      0x0FFFFFF8 := by
  have h := c3_fat_entries "disk.img" 1 (by decide) (by decide)
  exact ⟨(h 0 (by decide)).1.trans (by decide), (h 1 (by decide)).1.trans (by decide),
    (h 2 (by decide)).1.trans (by decide), (h 3 (by decide)).1.trans (by decide),
    (h 0 (by decide)).2.trans (by decide)⟩

/-- Witness for C5 at `size_mb = 1`, at the first and last byte of the FAT
region. -/
theorem c5_fat_copies_identical_witness :
    imgByte (create_fat32_image "disk.img" 1) ((mkGeometry 1).reserved_sectors * 512 + 0) =
      imgByte (create_fat32_image "disk.img" 1)
        (((mkGeometry 1).reserved_sectors + (mkGeometry 1).fat_size_sectors) * 512 + 0) ∧
    imgByte (create_fat32_image "disk.img" 1) ((mkGeometry 1).reserved_sectors * 512 + 8191) =
      imgByte (create_fat32_image "disk.img" 1)
        (((mkGeometry 1).reserved_sectors + (mkGeometry 1).fat_size_sectors) * 512 + 8191) :=
  ⟨c5_fat_copies_identical "disk.img" 1 (by decide) (by decide) 0 (by decide),
   c5_fat_copies_identical "disk.img" 1 (by decide) (by decide) 8191 (by decide)⟩

/-- Witness for C6 at `size_mb = 1`, at the first and last byte of the
root-directory cluster. -/
theorem c6_root_cluster_zero_witness :
    imgByte (create_fat32_image "disk.img" 1)
      (((mkGeometry 1).reserved_sectors + 2 * (mkGeometry 1).fat_size_sectors) * 512 + 0) = 0 ∧
    imgByte (create_fat32_image "disk.img" 1)
      (((mkGeometry 1).reserved_sectors + 2 * (mkGeometry 1).fat_size_sectors) * 512 + 511) =
      0 :=
  ⟨c6_root_cluster_zero "disk.img" 1 (by decide) (by decide) 0 (by decide),
   c6_root_cluster_zero "disk.img" 1 (by decide) (by decide) 511 (by decide)⟩

/-! ### Claim C7 — command surface (corrected: the size is not settable) -/

/-- C7 as stated is false: supplying a size on the command line does not
change the produced image.  With `argv = ["mkfat32.py", "disk.img", "64"]`
the program writes a `32 * 1024 * 1024 = 33554432`-byte image, not a
`64 * 1024 * 1024`-byte one — `__main__` calls
`create_fat32_image(sys.argv[1])` and never reads `sys.argv[2]`. -/
theorem c7_counterexample :
    mainOutputLen (mainRun ["mkfat32.py", "disk.img", "64"]) = some 33554432 ∧
    (33554432 : Nat) ≠ 64 * 1024 * 1024 := by
  constructor
  · decide
  · decide

/-- C7 (amended): the command surface accepts a single positional
output-path argument; `create_fat32_image` has a size parameter that
defaults to 32, but the command line never forwards one — any arguments
after the output path are ignored and the program always produces a
`32 * 1024 * 1024`-byte (32 MB) image. -/
theorem c7_cli_size (script fn : String) (rest : List String) :
    mainRun (script :: fn :: rest) =
      { exitCode := 0, usagePrinted := false,
        output := some (fn, create_fat32_image fn 32) } ∧
    mainOutputLen (mainRun (script :: fn :: rest)) = some (32 * 1024 * 1024) := by
  have hok := packOk_of_bounds 32 (by decide) (by decide)
  have hlen : imgLen (create_fat32_image fn 32) = 32 * 1024 * 1024 := by
    rw [imgLen_create fn 32 hok]
    decide
  exact ⟨rfl, (rfl : mainOutputLen (mainRun (script :: fn :: rest)) =
    some (imgLen (create_fat32_image fn 32))).trans (congrArg some hlen)⟩

/-! ### Claim C8 — usage error handling -/

/-- C8: with fewer than two `argv` entries (missing output path) the program
prints the usage message, exits with status 1 and attempts no output file;
with the output path present it writes the file and exits with status 0. -/
theorem c8_usage_error :
    (∀ argv : List String, argv.length < 2 →
      mainRun argv = { exitCode := 1, usagePrinted := true, output := none }) ∧
    (∀ (script fn : String) (rest : List String),
      (mainRun (script :: fn :: rest)).exitCode = 0 ∧
      (mainRun (script :: fn :: rest)).usagePrinted = false ∧
      (mainRun (script :: fn :: rest)).output.isSome = true) := by
  constructor
  · intro argv h
    match argv with
    | [] => rfl
    | [_] => rfl
    | _ :: _ :: _ => exact absurd h (by simp [List.length_cons])
  · exact fun _ _ _ => ⟨rfl, rfl, rfl⟩

/-- Witness for C8: no arguments beyond the script name, and a run with an
output path. -/
theorem c8_usage_error_witness :
    mainRun ["mkfat32.py"] = { exitCode := 1, usagePrinted := true, output := none } ∧
    (mainRun ["mkfat32.py", "disk.img"]).exitCode = 0 ∧
    (mainRun ["mkfat32.py", "disk.img"]).usagePrinted = false ∧
    (mainRun ["mkfat32.py", "disk.img"]).output.isSome = true :=
  ⟨c8_usage_error.1 ["mkfat32.py"] (by decide),
   c8_usage_error.2 "mkfat32.py" "disk.img" []⟩

/-! ### Claim C9 — determinism -/

/-- C9: `create_fat32_image` is deterministic — two invocations with the
same filename and `size_mb` produce the same output, and the output bytes
depend on no input besides the arguments (not even the filename, which only
names the `open` target). -/
theorem c9_deterministic :
    (∀ (fn : String) (s : Nat), create_fat32_image fn s = create_fat32_image fn s) ∧
    (∀ (fn1 fn2 : String) (s : Nat),
      create_fat32_image fn1 s = create_fat32_image fn2 s) :=
  ⟨fun _ _ => rfl, fun _ _ _ => rfl⟩
